import Mathlib

/-!
Shallow embedding of the risk assessment and alerting pipeline of the
AI-Based Disaster Early Warning Platform repository.

Sources embedded:
- backend/app/services/risk_engine.py (thresholds, compute_risk_score,
  should_trigger_alert, get_alert_severity)
- backend/main.py (_rule_based_prediction, the auto-alert step of predict_risk)
- backend/app/services/alert_service.py (AlertRateLimiter, AlertService.generate_alert)
- ml_service/feature_engineering/features.py (compute_temporal_features rolling block)

Numeric readings are modelled as exact rationals; Python float values in the
claims are exactly representable at the precision the claims use. Wall-clock
timestamps are modelled as an explicit `now` parameter measured in minutes on
the rational line, with the Python datetime.min origin at 0.
-/

/- ── risk_engine.py ──────────────────────────────────────────── -/

/-- Raw weather and sensor readings passed as raw_features to
compute_risk_score, and as features to the rule-based fallback. Absent
dictionary keys are modelled as `none`. Only the six parameters consulted by
SAFETY_THRESHOLDS and the fallback are carried; the remaining request fields
(humidity, elevation, proneness flags) are never read by the risk engine. -/
structure RawFeatures where
  rainfall_mm : Option ℚ := none
  wind_speed_kmh : Option ℚ := none
  river_level_m : Option ℚ := none
  temperature_c : Option ℚ := none
  seismic_signal : Option ℚ := none
  pressure_hpa : Option ℚ := none
deriving DecidableEq

/-- Dictionary lookup raw_features.get(param) for the threshold table keys. -/
def getParam (rf : RawFeatures) (p : String) : Option ℚ :=
  if p = "rainfall_mm" then rf.rainfall_mm
  else if p = "wind_speed_kmh" then rf.wind_speed_kmh
  else if p = "river_level_m" then rf.river_level_m
  else if p = "temperature_c" then rf.temperature_c
  else if p = "seismic_signal" then rf.seismic_signal
  else if p = "pressure_hpa" then rf.pressure_hpa
  else none

/-- SAFETY_THRESHOLDS table in dictionary insertion order: parameter name,
warning threshold, danger threshold. For pressure_hpa, below the threshold is
worse; for all others, above is worse. -/
def SAFETY_THRESHOLDS : List (String × ℚ × ℚ) :=
  [("rainfall_mm", 80, 150),
   ("wind_speed_kmh", 60, 100),
   ("river_level_m", 5, 7),
   ("temperature_c", 40, 45),
   ("seismic_signal", 3/2, 3),
   ("pressure_hpa", 995, 980)]

/-- One entry of the rule_alerts list. The Python code interpolates the
parameter name, the reading and the threshold into a single message string
whose leading word is the severity; the components are kept structured here. -/
structure RuleAlert where
  severity : String
  param : String
  value : ℚ
  threshold : ℚ
deriving DecidableEq

/-- Bonus contributed by one iteration of the threshold loop in
compute_risk_score for one table entry. -/
def entryBonus (rf : RawFeatures) (e : String × ℚ × ℚ) : ℕ :=
  match getParam rf e.1 with
  | none => 0
  | some v =>
    if e.1 = "pressure_hpa" then
      if v < e.2.2 then 20
      else if v < e.2.1 then 10
      else 0
    else
      if v > e.2.2 then 20
      else if v > e.2.1 then 10
      else 0

/-- Messages appended by one iteration of the threshold loop for one table
entry; the same branch that adds 20 appends the CRITICAL message and the
branch that adds 10 appends the WARNING message. -/
def entryAlerts (rf : RawFeatures) (e : String × ℚ × ℚ) : List RuleAlert :=
  match getParam rf e.1 with
  | none => []
  | some v =>
    if e.1 = "pressure_hpa" then
      if v < e.2.2 then [⟨"CRITICAL", e.1, v, e.2.2⟩]
      else if v < e.2.1 then [⟨"WARNING", e.1, v, e.2.1⟩]
      else []
    else
      if v > e.2.2 then [⟨"CRITICAL", e.1, v, e.2.2⟩]
      else if v > e.2.1 then [⟨"WARNING", e.1, v, e.2.1⟩]
      else []

/-- Threshold loop of compute_risk_score: running (rule_bonus, rule_alerts)
pair over the table, each iteration adding that entry bonus and appending that
entry messages. -/
def ruleCheck (rf : RawFeatures) : ℕ × List RuleAlert :=
  SAFETY_THRESHOLDS.foldl
    (fun acc e => (acc.1 + entryBonus rf e, acc.2 ++ entryAlerts rf e)) (0, [])

/-- Python int() conversion: truncation toward zero. -/
def pyInt (q : ℚ) : ℤ := if 0 ≤ q then ⌊q⌋ else -⌊-q⌋

/-- Risk level branch of compute_risk_score on the final integer score. -/
def riskLevelOf (s : ℤ) : String :=
  if s ≤ 40 then "Low" else if s ≤ 70 then "Medium" else "High"

/-- RISK_BANDS color field by level, with the fallback branch unreachable for
the three produced levels. -/
def bandColor (level : String) : String :=
  if level = "Low" then "green" else if level = "Medium" then "orange"
  else if level = "High" then "red" else ""

/-- RISK_BANDS emoji field by level. -/
def bandEmoji (level : String) : String :=
  if level = "Low" then "LOW" else if level = "Medium" then "MEDIUM"
  else if level = "High" then "HIGH" else ""

/-- ACTIONS table: recommended action string per risk level. A level outside
the three keys would raise KeyError in Python; compute_risk_score only ever
looks up the three produced levels. -/
def ACTIONS (level : String) : String :=
  if level = "Low" then
    "Monitor - Continue normal activities. Stay informed via alerts."
  else if level = "Medium" then
    "Prepare - Review emergency plans. Secure property. Stay alert."
  else if level = "High" then
    "Evacuate - Move to safety immediately. Follow authority instructions."
  else ""

/-- Python round banker rounding of q to an integer (ties to even). -/
def roundHalfEven (x : ℚ) : ℤ :=
  let f := ⌊x⌋
  let r := x - f
  if r < 1/2 then f
  else if r > 1/2 then f + 1
  else if Even f then f else f + 1

/-- Python round(x, 4) on the exact rational value. -/
def round4 (x : ℚ) : ℚ := (roundHalfEven (x * 10000) : ℚ) / 10000

/-- Output dictionary of DisasterPredictor.predict and of the rule-based
fallback, with the keys compute_risk_score and generate_alert read. -/
structure MLPrediction where
  disaster_type : String
  risk_probability : ℚ
  risk_score : ℚ
  risk_level : String
  recommended_action : String
  class_probabilities : List (String × ℚ)
  model_version : String
deriving DecidableEq

/-- Risk assessment dictionary returned by compute_risk_score. The wall-clock
timestamp field is a reading of utcnow at return time and is not modelled. -/
structure RiskResult where
  disaster_type : String
  ml_risk_score : ℚ
  rule_bonus : ℕ
  final_risk_score : ℤ
  risk_level : String
  risk_color : String
  risk_emoji : String
  risk_probability : ℚ
  recommended_action : String
  rule_alerts : List RuleAlert
  class_probabilities : List (String × ℚ)
  model_version : String
  confidence : ℚ
deriving DecidableEq

/-- compute_risk_score from risk_engine.py. The raw_features argument is
`none` when the Python value is None or an empty dictionary (both falsy, both
skipping the threshold loop). -/
def compute_risk_score (p : MLPrediction) (raw : Option RawFeatures) : RiskResult :=
  let checked := match raw with
    | none => ((0 : ℕ), ([] : List RuleAlert))
    | some rf => ruleCheck rf
  let final := pyInt (min 100 (max 0 (p.risk_score + (checked.1 : ℚ))))
  let level := riskLevelOf final
  { disaster_type := p.disaster_type
    ml_risk_score := p.risk_score
    rule_bonus := checked.1
    final_risk_score := final
    risk_level := level
    risk_color := bandColor level
    risk_emoji := bandEmoji level
    risk_probability := p.risk_probability
    recommended_action := ACTIONS level
    rule_alerts := checked.2
    class_probabilities := p.class_probabilities
    model_version := p.model_version
    confidence := round4 p.risk_probability }

/-- should_trigger_alert from risk_engine.py. -/
def should_trigger_alert (r : RiskResult) : Bool :=
  decide (40 < r.final_risk_score) && (r.disaster_type != "None")

/-- get_alert_severity from risk_engine.py: mapping.get(risk_level, info). -/
def get_alert_severity (r : RiskResult) : String :=
  if r.risk_level = "Low" then "info"
  else if r.risk_level = "Medium" then "warning"
  else if r.risk_level = "High" then "critical"
  else "info"

/- ── main.py rule-based fallback ─────────────────────────────── -/

/-- Fallback rule-based prediction from backend/main.py, evaluated when the ML
model is unavailable. Dictionary get defaults follow the source: 0 for every
reading except pressure, which defaults to 1013. -/
def rule_based_prediction (f : RawFeatures) : MLPrediction :=
  let rainfall := f.rainfall_mm.getD 0
  let river := f.river_level_m.getD 0
  let wind := f.wind_speed_kmh.getD 0
  let pressure := f.pressure_hpa.getD 1013
  let seismic := f.seismic_signal.getD 0
  let temp := f.temperature_c.getD 0
  let sd : ℚ × String :=
    if rainfall > 100 ∧ river > 5 then (75, "Flood")
    else if wind > 80 ∧ pressure < 990 then (80, "Cyclone")
    else if seismic > 2 then (70, "Earthquake")
    else if temp > 42 then (65, "Heatwave")
    else if rainfall > 60 then (45, "Flood")
    else if wind > 50 then (50, "Cyclone")
    else (0, "None")
  { disaster_type := sd.2
    risk_probability := sd.1 / 100
    risk_score := sd.1
    risk_level := if sd.1 ≤ 40 then "Low" else if sd.1 ≤ 70 then "Medium" else "High"
    recommended_action :=
      if sd.1 ≤ 40 then "Monitor" else if sd.1 ≤ 70 then "Prepare" else "Evacuate"
    class_probabilities := [(sd.2, sd.1 / 100)]
    model_version := "rule_based_v1" }

/- ── theorems: C1 and C4 ─────────────────────────────────────── -/

theorem clamp_nonneg (x : ℚ) : 0 ≤ min 100 (max 0 x) :=
  le_min (by norm_num) (le_max_left 0 x)

theorem clamp_le (x : ℚ) : min 100 (max 0 x) ≤ 100 := min_le_left _ _

theorem pyInt_of_nonneg (q : ℚ) (h : 0 ≤ q) : pyInt q = ⌊q⌋ := by
  simp [pyInt, h]

/-- C1. For every ML prediction and raw-feature mapping, compute_risk_score
returns a final score s with 0 ≤ s ≤ 100 (integer clamp of base score plus
rule bonus), the risk level is determined by the fixed bands with inclusive
upper bounds (s ≤ 40 Low, 41 to 70 Medium, 71 to 100 High, a partition of
0..100 with no gaps or overlaps), and the recommended action is one of exactly
three fixed strings determined solely by the risk level. -/
theorem c1_score_bounds_bands_actions :
    (∀ (p : MLPrediction) (raw : Option RawFeatures),
      0 ≤ (compute_risk_score p raw).final_risk_score ∧
      (compute_risk_score p raw).final_risk_score ≤ 100 ∧
      (compute_risk_score p raw).final_risk_score
        = pyInt (min 100 (max 0 (p.risk_score + ((compute_risk_score p raw).rule_bonus : ℚ)))) ∧
      (compute_risk_score p raw).risk_level
        = riskLevelOf (compute_risk_score p raw).final_risk_score ∧
      (compute_risk_score p raw).recommended_action
        = ACTIONS (compute_risk_score p raw).risk_level ∧
      ((compute_risk_score p raw).recommended_action
          = "Monitor - Continue normal activities. Stay informed via alerts." ∨
       (compute_risk_score p raw).recommended_action
          = "Prepare - Review emergency plans. Secure property. Stay alert." ∨
       (compute_risk_score p raw).recommended_action
          = "Evacuate - Move to safety immediately. Follow authority instructions.")) ∧
    (∀ s : Fin 101,
      (riskLevelOf (s : ℕ) = "Low" ↔ (s : ℕ) ≤ 40) ∧
      (riskLevelOf (s : ℕ) = "Medium" ↔ 41 ≤ (s : ℕ) ∧ (s : ℕ) ≤ 70) ∧
      (riskLevelOf (s : ℕ) = "High" ↔ 71 ≤ (s : ℕ))) := by
  constructor
  · intro p raw
    set x : ℚ := p.risk_score + ((match raw with
      | none => ((0 : ℕ), ([] : List RuleAlert))
      | some rf => ruleCheck rf).1 : ℚ) with hx
    have hq0 : 0 ≤ min 100 (max 0 x) := clamp_nonneg x
    have hq1 : min 100 (max 0 x) ≤ 100 := clamp_le x
    have hfinal : (compute_risk_score p raw).final_risk_score
        = pyInt (min 100 (max 0 x)) := rfl
    have hfloor : pyInt (min 100 (max 0 x)) = ⌊min 100 (max 0 x)⌋ :=
      pyInt_of_nonneg _ hq0
    refine ⟨?_, ?_, ?_, rfl, rfl, ?_⟩
    · rw [hfinal, hfloor]
      exact Int.le_floor.mpr (by exact_mod_cast hq0)
    · rw [hfinal, hfloor]
      have := (Int.floor_le (min 100 (max 0 x))).trans hq1
      exact_mod_cast this
    · rw [hfinal]; rfl
    · show (ACTIONS _ = _ ∨ ACTIONS _ = _ ∨ ACTIONS _ = _)
      unfold riskLevelOf ACTIONS
      by_cases h1 : pyInt (min 100 (max 0 x)) ≤ 40 <;>
        by_cases h2 : pyInt (min 100 (max 0 x)) ≤ 70 <;>
        simp [h1, h2]
  · decide

/-- C4. should_trigger_alert returns true iff the final score strictly
exceeds 40 and the disaster type is not None; in particular it is false for
disaster type None regardless of the score. -/
theorem c4_should_trigger_alert_iff :
    ∀ r : RiskResult,
      (should_trigger_alert r = true ↔
        40 < r.final_risk_score ∧ r.disaster_type ≠ "None") ∧
      should_trigger_alert { r with disaster_type := "None" } = false := by
  intro r
  constructor
  · simp [should_trigger_alert]
  · simp [should_trigger_alert]

/- ── theorems: C2 ────────────────────────────────────────────── -/

/-- Spec formulation of a single parameter bonus where higher readings are
worse: strictly above danger adds 20, above only warning adds 10, absent
readings contribute nothing. -/
def specBonusAbove (v? : Option ℚ) (warn danger : ℚ) : ℕ :=
  match v? with
  | none => 0
  | some v => if v > danger then 20 else if v > warn then 10 else 0

/-- Spec formulation of the pressure bonus, compared in the opposite
direction: below danger adds 20, below only warning adds 10. -/
def specBonusBelow (v? : Option ℚ) (warn danger : ℚ) : ℕ :=
  match v? with
  | none => 0
  | some v => if v < danger then 20 else if v < warn then 10 else 0

/-- Spec formulation of the messages of a single higher-is-worse parameter. -/
def specAlertsAbove (p : String) (v? : Option ℚ) (warn danger : ℚ) : List RuleAlert :=
  match v? with
  | none => []
  | some v =>
    if v > danger then [⟨"CRITICAL", p, v, danger⟩]
    else if v > warn then [⟨"WARNING", p, v, warn⟩]
    else []

/-- Spec formulation of the pressure messages, compared downward. -/
def specAlertsBelow (p : String) (v? : Option ℚ) (warn danger : ℚ) : List RuleAlert :=
  match v? with
  | none => []
  | some v =>
    if v < danger then [⟨"CRITICAL", p, v, danger⟩]
    else if v < warn then [⟨"WARNING", p, v, warn⟩]
    else []

theorem entryBonus_rainfall (rf : RawFeatures) :
    entryBonus rf ("rainfall_mm", 80, 150) = specBonusAbove rf.rainfall_mm 80 150 := by
  cases h : rf.rainfall_mm <;> simp [entryBonus, getParam, specBonusAbove, h]

theorem entryBonus_wind (rf : RawFeatures) :
    entryBonus rf ("wind_speed_kmh", 60, 100) = specBonusAbove rf.wind_speed_kmh 60 100 := by
  cases h : rf.wind_speed_kmh <;> simp [entryBonus, getParam, specBonusAbove, h]

theorem entryBonus_river (rf : RawFeatures) :
    entryBonus rf ("river_level_m", 5, 7) = specBonusAbove rf.river_level_m 5 7 := by
  cases h : rf.river_level_m <;> simp [entryBonus, getParam, specBonusAbove, h]

theorem entryBonus_temp (rf : RawFeatures) :
    entryBonus rf ("temperature_c", 40, 45) = specBonusAbove rf.temperature_c 40 45 := by
  cases h : rf.temperature_c <;> simp [entryBonus, getParam, specBonusAbove, h]

theorem entryBonus_seismic (rf : RawFeatures) :
    entryBonus rf ("seismic_signal", 3/2, 3) = specBonusAbove rf.seismic_signal (3/2) 3 := by
  cases h : rf.seismic_signal <;> simp [entryBonus, getParam, specBonusAbove, h]

theorem entryBonus_pressure (rf : RawFeatures) :
    entryBonus rf ("pressure_hpa", 995, 980) = specBonusBelow rf.pressure_hpa 995 980 := by
  cases h : rf.pressure_hpa <;> simp [entryBonus, getParam, specBonusBelow, h]

theorem entryAlerts_rainfall (rf : RawFeatures) :
    entryAlerts rf ("rainfall_mm", 80, 150)
      = specAlertsAbove "rainfall_mm" rf.rainfall_mm 80 150 := by
  cases h : rf.rainfall_mm <;> simp [entryAlerts, getParam, specAlertsAbove, h]

theorem entryAlerts_wind (rf : RawFeatures) :
    entryAlerts rf ("wind_speed_kmh", 60, 100)
      = specAlertsAbove "wind_speed_kmh" rf.wind_speed_kmh 60 100 := by
  cases h : rf.wind_speed_kmh <;> simp [entryAlerts, getParam, specAlertsAbove, h]

theorem entryAlerts_river (rf : RawFeatures) :
    entryAlerts rf ("river_level_m", 5, 7)
      = specAlertsAbove "river_level_m" rf.river_level_m 5 7 := by
  cases h : rf.river_level_m <;> simp [entryAlerts, getParam, specAlertsAbove, h]

theorem entryAlerts_temp (rf : RawFeatures) :
    entryAlerts rf ("temperature_c", 40, 45)
      = specAlertsAbove "temperature_c" rf.temperature_c 40 45 := by
  cases h : rf.temperature_c <;> simp [entryAlerts, getParam, specAlertsAbove, h]

theorem entryAlerts_seismic (rf : RawFeatures) :
    entryAlerts rf ("seismic_signal", 3/2, 3)
      = specAlertsAbove "seismic_signal" rf.seismic_signal (3/2) 3 := by
  cases h : rf.seismic_signal <;> simp [entryAlerts, getParam, specAlertsAbove, h]

theorem entryAlerts_pressure (rf : RawFeatures) :
    entryAlerts rf ("pressure_hpa", 995, 980)
      = specAlertsBelow "pressure_hpa" rf.pressure_hpa 995 980 := by
  cases h : rf.pressure_hpa <;> simp [entryAlerts, getParam, specAlertsBelow, h]

/-- Unfolding of the six iteration fold of ruleCheck over the concrete
threshold table. -/
theorem ruleCheck_eq (rf : RawFeatures) :
    ruleCheck rf =
      (entryBonus rf ("rainfall_mm", 80, 150) + entryBonus rf ("wind_speed_kmh", 60, 100)
        + entryBonus rf ("river_level_m", 5, 7) + entryBonus rf ("temperature_c", 40, 45)
        + entryBonus rf ("seismic_signal", 3/2, 3) + entryBonus rf ("pressure_hpa", 995, 980),
       entryAlerts rf ("rainfall_mm", 80, 150) ++ entryAlerts rf ("wind_speed_kmh", 60, 100)
        ++ entryAlerts rf ("river_level_m", 5, 7) ++ entryAlerts rf ("temperature_c", 40, 45)
        ++ entryAlerts rf ("seismic_signal", 3/2, 3) ++ entryAlerts rf ("pressure_hpa", 995, 980)) := by
  simp [ruleCheck, SAFETY_THRESHOLDS, List.foldl]

/-- Raw features of the wind 90, pressure 985 example. -/
def c2Features : RawFeatures :=
  { wind_speed_kmh := some 90, pressure_hpa := some 985 }

/-- C2. The rule bonus decomposes into independent additive per-parameter
contributions of the fixed threshold table (above danger adds 20 with a
CRITICAL message, above only warning adds 10 with a WARNING message, pressure
compared in the opposite direction, absent readings contributing nothing), and
in the example wind 90 and pressure 985 each exceed only their warning
threshold, so the rule bonus is 20 and the final score is the clamp of the
base score plus 20. -/
theorem c2_rule_bonus_additive :
    (∀ rf : RawFeatures,
      (ruleCheck rf).1 =
        specBonusAbove rf.rainfall_mm 80 150 +
        specBonusAbove rf.wind_speed_kmh 60 100 +
        specBonusAbove rf.river_level_m 5 7 +
        specBonusAbove rf.temperature_c 40 45 +
        specBonusAbove rf.seismic_signal (3/2) 3 +
        specBonusBelow rf.pressure_hpa 995 980 ∧
      (ruleCheck rf).2 =
        specAlertsAbove "rainfall_mm" rf.rainfall_mm 80 150 ++
        specAlertsAbove "wind_speed_kmh" rf.wind_speed_kmh 60 100 ++
        specAlertsAbove "river_level_m" rf.river_level_m 5 7 ++
        specAlertsAbove "temperature_c" rf.temperature_c 40 45 ++
        specAlertsAbove "seismic_signal" rf.seismic_signal (3/2) 3 ++
        specAlertsBelow "pressure_hpa" rf.pressure_hpa 995 980) ∧
    (ruleCheck c2Features).1 = 20 ∧
    (ruleCheck c2Features).2 =
      [⟨"WARNING", "wind_speed_kmh", 90, 60⟩, ⟨"WARNING", "pressure_hpa", 985, 995⟩] ∧
    (∀ p : MLPrediction,
      (compute_risk_score p (some c2Features)).rule_bonus = 20 ∧
      (compute_risk_score p (some c2Features)).final_risk_score
        = pyInt (min 100 (max 0 (p.risk_score + 20)))) := by
  have h20 : (ruleCheck c2Features).1 = 20 := by
    rw [ruleCheck_eq, entryBonus_rainfall, entryBonus_wind, entryBonus_river, entryBonus_temp,
      entryBonus_seismic, entryBonus_pressure]
    norm_num [c2Features, specBonusAbove, specBonusBelow]
  refine ⟨?_, h20, ?_, ?_⟩
  · intro rf
    rw [ruleCheck_eq]
    constructor
    · rw [entryBonus_rainfall, entryBonus_wind, entryBonus_river, entryBonus_temp,
        entryBonus_seismic, entryBonus_pressure]
    · rw [entryAlerts_rainfall, entryAlerts_wind, entryAlerts_river, entryAlerts_temp,
        entryAlerts_seismic, entryAlerts_pressure]
  · rw [ruleCheck_eq, entryAlerts_rainfall, entryAlerts_wind, entryAlerts_river,
      entryAlerts_temp, entryAlerts_seismic, entryAlerts_pressure]
    norm_num [c2Features, specAlertsAbove, specAlertsBelow]
  · intro p
    have hrb : (compute_risk_score p (some c2Features)).rule_bonus = 20 := h20
    refine ⟨hrb, ?_⟩
    show pyInt (min 100 (max 0 (p.risk_score + ((ruleCheck c2Features).1 : ℚ)))) = _
    rw [h20]
    norm_num

/- ── theorems: C3 ────────────────────────────────────────────── -/

/-- Raw features of the flood example: rainfall 120, river level 6.0,
pressure 1005, remaining request fields at their PredictRequest defaults
except temperature which the example leaves benign at 25. -/
def c3Features : RawFeatures :=
  { rainfall_mm := some 120, wind_speed_kmh := some 10, river_level_m := some 6,
    temperature_c := some 25, seismic_signal := some (1/10), pressure_hpa := some 1005 }

/-- Fallback prediction of the flood example. -/
def c3Pred : MLPrediction := rule_based_prediction c3Features

/-- Risk assessment of the flood example. -/
def c3Result : RiskResult := compute_risk_score c3Pred (some c3Features)

theorem c3_rule_bonus : (ruleCheck c3Features).1 = 20 := by
  rw [ruleCheck_eq, entryBonus_rainfall, entryBonus_wind, entryBonus_river, entryBonus_temp,
    entryBonus_seismic, entryBonus_pressure]
  norm_num [c3Features, specBonusAbove, specBonusBelow]

theorem c3_pred_score : c3Pred.risk_score = 75 := by decide

theorem c3_final : c3Result.final_risk_score = 95 := by
  show pyInt (min 100 (max 0 (c3Pred.risk_score + ((ruleCheck c3Features).1 : ℚ)))) = 95
  rw [c3_pred_score, c3_rule_bonus]
  have hc : (75 : ℚ) + ((20 : ℕ) : ℚ) = 95 := by norm_num
  rw [hc]
  decide

theorem c3_level : c3Result.risk_level = "High" := by
  show riskLevelOf c3Result.final_risk_score = "High"
  rw [c3_final]
  decide

/-- C3 counterexample. On rainfall 120 and river level 6.0 the fallback does
yield Flood with base score 75, but feeding the same raw readings through
compute_risk_score gives rule bonus 20 (rainfall and river level each exceed
their warning thresholds), not 0, and final score 95, not 75. -/
theorem c3_flood_fallback_counterexample :
    c3Pred.disaster_type = "Flood" ∧ c3Pred.risk_score = 75 ∧
    c3Result.rule_bonus = 20 ∧ c3Result.final_risk_score = 95 ∧
    ¬ (c3Result.rule_bonus = 0) ∧ ¬ (c3Result.final_risk_score = 75) := by
  have hrb : c3Result.rule_bonus = 20 := c3_rule_bonus
  refine ⟨by decide, c3_pred_score, hrb, c3_final, ?_, ?_⟩
  · rw [hrb]; decide
  · rw [c3_final]; decide

/-- C3 amended. For rainfall 120, river level 6.0, pressure 1005 and benign
remaining readings, the rule-based fallback yields Flood with base score 75
(the first matching condition wins, later conditions including the secondary
rainfall above 60 branch are not evaluated); pressure at 1005 contributes no
bonus, but rainfall and river level each exceed their warning thresholds, so
the rule bonus is 20, the final score is 95, the risk level is High (95
strictly above 70) and the recommended action is the Evacuate string. -/
theorem c3_flood_fallback_amended :
    c3Pred.disaster_type = "Flood" ∧ c3Pred.risk_score = 75 ∧
    entryBonus c3Features ("pressure_hpa", 995, 980) = 0 ∧
    entryBonus c3Features ("rainfall_mm", 80, 150) = 10 ∧
    entryBonus c3Features ("river_level_m", 5, 7) = 10 ∧
    c3Result.rule_bonus = 20 ∧
    c3Result.final_risk_score = 95 ∧
    c3Result.risk_level = "High" ∧
    c3Result.recommended_action =
      "Evacuate - Move to safety immediately. Follow authority instructions." := by
  refine ⟨by decide, c3_pred_score, ?_, ?_, ?_, c3_rule_bonus, c3_final, c3_level, ?_⟩
  · rw [entryBonus_pressure]
    norm_num [c3Features, specBonusBelow]
  · rw [entryBonus_rainfall]
    norm_num [c3Features, specBonusAbove]
  · rw [entryBonus_river]
    norm_num [c3Features, specBonusAbove]
  · show ACTIONS c3Result.risk_level = _
    rw [c3_level]
    decide

/- ── alert_service.py ────────────────────────────────────────── -/

/-- Region dictionary handed to generate_alert; the two keys read are id and
name, with get defaults applied by the caller model. -/
structure RegionInfo where
  id : String
  name : String
deriving DecidableEq

/-- Row handed to PredictionDAO.insert by generate_alert. The explanation
field (an empty dictionary unless the caller added one) is not modelled. -/
structure PredictionRecord where
  region_id : String
  timestamp : ℤ
  disaster_type : String
  risk_probability : ℚ
  risk_score : ℤ
  risk_level : String
  recommended_action : String
  model_version : String
deriving DecidableEq

/-- Alert dictionary built by generate_alert. The free-text message block
repeats the disaster type, score, region name, action, confidence and time in
prose and is not consulted by any claim; it is elided. The prediction_id key
is present only when PredictionDAO.insert succeeded, the id key only after
AlertDAO.insert succeeded. -/
structure AlertRecord where
  region_id : String
  alert_type : String
  severity : String
  title : String
  recommended_action : String
  status : String
  delivered_channels : String
  risk_score : ℤ
  prediction_id : Option ℕ := none
  id : Option ℕ := none
deriving DecidableEq

/-- One appended line of the append-only delivery log file: timestamp, alert
title, alert severity. -/
structure DeliveryEntry where
  time : ℤ
  title : String
  severity : String
deriving DecidableEq

/-- Process-wide mutable state touched by AlertService: the rate limiter map
(a defaultdict with default datetime.min, modelled as a total function), the
prediction and alert tables behind the DAOs, and the delivery log file.
Timestamps are minutes on the integer line. -/
structure AlertServiceState where
  lastAlert : String → ℤ
  predictions : List PredictionRecord
  alerts : List AlertRecord
  deliveryLog : List DeliveryEntry

/-- Python datetime.min, the origin of the time axis. -/
def datetimeMin : ℤ := 0

/-- Fresh AlertService state: no region ever alerted, empty tables, empty
delivery log. -/
def initState : AlertServiceState :=
  { lastAlert := fun _ => datetimeMin, predictions := [], alerts := [], deliveryLog := [] }

/-- AlertRateLimiter.can_send: utcnow minus the last alert time of the region
strictly exceeds the cooldown; an unseen region reads the defaultdict default
datetime.min. -/
def can_send (st : AlertServiceState) (cooldown now : ℤ) (region_id : String) : Bool :=
  decide (now - st.lastAlert region_id > cooldown)

/-- AlertRateLimiter.record: sets the region last alert time to utcnow. -/
def recordAlert (st : AlertServiceState) (region_id : String) (now : ℤ) : AlertServiceState :=
  { st with lastAlert := fun x => if x = region_id then now else st.lastAlert x }

/-- Python str.lower applied characterwise; the risk level strings it is
applied to are plain ASCII. -/
def pyLower (s : String) : String := ⟨s.data.map Char.toLower⟩

/-- Alert dictionary construction step of generate_alert, before any
persistence: severity is the lowercased risk level, the title is composed from
emoji, risk level, disaster type and region name, the status starts active and
the delivery channel defaults to web. -/
def builtAlert (risk : RiskResult) (region : RegionInfo) : AlertRecord :=
  { region_id := region.id
    alert_type := risk.disaster_type
    severity := pyLower risk.risk_level
    title := risk.risk_emoji ++ " " ++ risk.risk_level ++ " Risk: " ++ risk.disaster_type
      ++ " Alert — " ++ region.name
    recommended_action := risk.recommended_action
    status := "active"
    delivered_channels := "web"
    risk_score := risk.final_risk_score }

/-- Prediction dictionary construction step of generate_alert. -/
def builtPrediction (now : ℤ) (risk : RiskResult) (region : RegionInfo) : PredictionRecord :=
  { region_id := region.id
    timestamp := now
    disaster_type := risk.disaster_type
    risk_probability := risk.risk_probability
    risk_score := risk.final_risk_score
    risk_level := risk.risk_level
    recommended_action := risk.recommended_action
    model_version := risk.model_version }

/-- Result of AlertService.generate_alert: the rate_limited dictionary or the
sent dictionary carrying the alert payload. -/
inductive GenResult where
  | rateLimited (region_id : String)
  | sent (alert : AlertRecord)
deriving DecidableEq

/-- AlertService.generate_alert. The two DAO inserts are external calls that
either return a fresh row id or raise; their outcomes are oracle parameters
(some id for success, none for a raised and caught exception). Steps in source
order: rate limit check, alert and prediction dictionary construction,
best-effort prediction insert, best-effort alert insert, rate limiter record,
delivery (console print plus one appended delivery log line), sent result. -/
def generate_alert (cooldown now : ℤ) (predInsert alertInsert : Option ℕ)
    (risk : RiskResult) (region : RegionInfo) (st : AlertServiceState) :
    GenResult × AlertServiceState :=
  if can_send st cooldown now region.id = false then
    (GenResult.rateLimited region.id, st)
  else
    let alertData := builtAlert risk region
    let predData := builtPrediction now risk region
    let step1 := match predInsert with
      | some pid => ({ st with predictions := st.predictions ++ [predData] },
                     { alertData with prediction_id := some pid })
      | none => (st, alertData)
    let step2 := match alertInsert with
      | some aid => ({ step1.1 with alerts := step1.1.alerts ++ [step1.2] },
                     { step1.2 with id := some aid })
      | none => step1
    let st3 := recordAlert step2.1 region.id now
    let st4 := { st3 with
      deliveryLog := st3.deliveryLog ++ [⟨now, step2.2.title, step2.2.severity⟩] }
    (GenResult.sent step2.2, st4)

/-- Auto-alert step of the predict_risk route in backend/main.py: the
dispatcher is invoked only when should_trigger_alert accepts the risk
result. -/
def predict_risk_auto_alert (cooldown now : ℤ) (predInsert alertInsert : Option ℕ)
    (risk : RiskResult) (region : RegionInfo) (st : AlertServiceState) :
    Option (GenResult × AlertServiceState) :=
  if should_trigger_alert risk then
    some (generate_alert cooldown now predInsert alertInsert risk region st)
  else none

theorem builtAlert_prediction_id (risk : RiskResult) (region : RegionInfo) :
    (builtAlert risk region).prediction_id = none := rfl

theorem builtAlert_id (risk : RiskResult) (region : RegionInfo) :
    (builtAlert risk region).id = none := rfl

theorem generate_alert_rate_limited (cooldown now : ℤ) (p a : Option ℕ)
    (risk : RiskResult) (region : RegionInfo) (st : AlertServiceState)
    (h : can_send st cooldown now region.id = false) :
    generate_alert cooldown now p a risk region st = (GenResult.rateLimited region.id, st) := by
  simp [generate_alert, h]

theorem generate_alert_sent_eq (cooldown now : ℤ) (p a : Option ℕ)
    (risk : RiskResult) (region : RegionInfo) (st : AlertServiceState)
    (h : can_send st cooldown now region.id = true) :
    generate_alert cooldown now p a risk region st =
      (GenResult.sent { builtAlert risk region with prediction_id := p, id := a },
       { lastAlert := fun x => if x = region.id then now else st.lastAlert x
         predictions := st.predictions ++
           (match p with | some _ => [builtPrediction now risk region] | none => [])
         alerts := st.alerts ++
           (match a with
             | some _ => [{ builtAlert risk region with prediction_id := p }]
             | none => [])
         deliveryLog := st.deliveryLog ++
           [⟨now, (builtAlert risk region).title, (builtAlert risk region).severity⟩] }) := by
  cases p <;> cases a <;> simp [generate_alert, h, recordAlert] <;>
    first
      | rfl
      | (constructor <;> rfl)

/- ── theorems: C5 ────────────────────────────────────────────── -/

/-- Region used by the concrete alerting examples. -/
def regionR001 : RegionInfo := { id := "R001", name := "R001" }

/-- C5 counterexample. The alert built by generate_alert for a High risk
assessment carries severity high (the lowercased risk level), while the
paragraph 4.2 mapping get_alert_severity yields critical for the same
assessment; the two disagree, so the alert does not carry the SeverityOf
severity. -/
theorem c5_severity_counterexample :
    (generate_alert 60 100 (some 1) (some 1) c3Result regionR001 initState).1
      = GenResult.sent { builtAlert c3Result regionR001 with
          prediction_id := some 1, id := some 1 } ∧
    (builtAlert c3Result regionR001).severity = "high" ∧
    get_alert_severity c3Result = "critical" ∧
    ¬ ((builtAlert c3Result regionR001).severity = get_alert_severity c3Result) := by
  have hcs : can_send initState 60 100 regionR001.id = true := by decide
  have hsev : (builtAlert c3Result regionR001).severity = "high" := by
    show pyLower c3Result.risk_level = "high"
    rw [c3_level]
    rfl
  have hmap : get_alert_severity c3Result = "critical" := by
    simp [get_alert_severity, c3_level]
  refine ⟨?_, hsev, hmap, ?_⟩
  · rw [generate_alert_sent_eq 60 100 (some 1) (some 1) c3Result regionR001 initState hcs]
  · rw [hsev, hmap]; decide

/-- C5 amended. The alert built by generate_alert carries the lowercased risk
level as its severity (one of exactly low, medium, high for an assessment
coming from compute_risk_score); the paragraph 4.2 mapping exists in the code
as get_alert_severity (Low to info, Medium to warning, High to critical) but
generate_alert does not apply it. -/
theorem c5_severity_amended :
    ∀ (p : MLPrediction) (raw : Option RawFeatures) (cooldown now : ℤ)
      (pO aO : Option ℕ) (region : RegionInfo) (st : AlertServiceState),
      can_send st cooldown now region.id = true →
      ((generate_alert cooldown now pO aO (compute_risk_score p raw) region st).1
        = GenResult.sent { builtAlert (compute_risk_score p raw) region with
            prediction_id := pO, id := aO }) ∧
      (builtAlert (compute_risk_score p raw) region).severity
        = pyLower (compute_risk_score p raw).risk_level ∧
      ((builtAlert (compute_risk_score p raw) region).severity = "low" ∨
       (builtAlert (compute_risk_score p raw) region).severity = "medium" ∨
       (builtAlert (compute_risk_score p raw) region).severity = "high") ∧
      ((compute_risk_score p raw).risk_level = "Low" →
        get_alert_severity (compute_risk_score p raw) = "info") ∧
      ((compute_risk_score p raw).risk_level = "Medium" →
        get_alert_severity (compute_risk_score p raw) = "warning") ∧
      ((compute_risk_score p raw).risk_level = "High" →
        get_alert_severity (compute_risk_score p raw) = "critical") := by
  intro p raw cooldown now pO aO region st h
  refine ⟨?_, rfl, ?_, ?_, ?_, ?_⟩
  · rw [generate_alert_sent_eq cooldown now pO aO (compute_risk_score p raw) region st h]
  · show pyLower (compute_risk_score p raw).risk_level = "low" ∨
      pyLower (compute_risk_score p raw).risk_level = "medium" ∨
      pyLower (compute_risk_score p raw).risk_level = "high"
    have hlv : (compute_risk_score p raw).risk_level
        = riskLevelOf (compute_risk_score p raw).final_risk_score := rfl
    rw [hlv]
    unfold riskLevelOf
    split
    · left; rfl
    · split
      · right; left; rfl
      · right; right; rfl
  · intro hl; simp [get_alert_severity, hl]
  · intro hl; simp [get_alert_severity, hl]
  · intro hl; simp [get_alert_severity, hl]

/-- Witness for the amended C5 theorem at a concrete High assessment. -/
theorem c5_severity_amended_witness :
    can_send initState 60 100 regionR001.id = true ∧
    (generate_alert 60 100 none none (compute_risk_score c3Pred (some c3Features))
        regionR001 initState).1
      = GenResult.sent { builtAlert (compute_risk_score c3Pred (some c3Features))
          regionR001 with prediction_id := none, id := none } :=
  ⟨by decide,
   (c5_severity_amended c3Pred (some c3Features) 60 100 none none regionR001 initState
      (by decide)).1⟩

/- ── theorems: C6 ────────────────────────────────────────────── -/

/-- C6. can_send is true iff now minus the stored last alert time strictly
exceeds the cooldown, with a never-alerted region reading the datetime.min
default (so a fresh state lets any region through whenever now is more than
one cooldown past the origin); consequently with cooldown 60 a second
generate_alert call for the same region 30 minutes after a sent call is
rate_limited and a call 61 minutes after is sent. -/
theorem c6_rate_limiter_cooldown :
    (∀ (cooldown now : ℤ) (r : String),
      can_send initState cooldown now r = true ↔ now - datetimeMin > cooldown) ∧
    (∀ (st : AlertServiceState) (risk : RiskResult) (region : RegionInfo)
       (p1 a1 p2 a2 p3 a3 : Option ℕ) (t : ℤ),
      t - st.lastAlert region.id > 60 →
      (∃ rec, (generate_alert 60 t p1 a1 risk region st).1 = GenResult.sent rec) ∧
      (generate_alert 60 (t + 30) p2 a2 risk region
          (generate_alert 60 t p1 a1 risk region st).2).1
        = GenResult.rateLimited region.id ∧
      (∃ rec, (generate_alert 60 (t + 61) p3 a3 risk region
          (generate_alert 60 t p1 a1 risk region st).2).1 = GenResult.sent rec)) := by
  constructor
  · intro cooldown now r
    simp [can_send, initState]
  · intro st risk region p1 a1 p2 a2 p3 a3 t ht
    have h1 : can_send st 60 t region.id = true := by
      simp only [can_send, decide_eq_true_eq]
      exact ht
    have hlast : (generate_alert 60 t p1 a1 risk region st).2.lastAlert region.id = t := by
      rw [generate_alert_sent_eq 60 t p1 a1 risk region st h1]
      simp
    have h2 : can_send (generate_alert 60 t p1 a1 risk region st).2 60 (t + 30) region.id
        = false := by
      simp only [can_send, hlast, decide_eq_false_iff_not]
      omega
    have h3 : can_send (generate_alert 60 t p1 a1 risk region st).2 60 (t + 61) region.id
        = true := by
      simp only [can_send, hlast, decide_eq_true_eq]
      omega
    refine ⟨?_, ?_, ?_⟩
    · exact ⟨_, by rw [generate_alert_sent_eq 60 t p1 a1 risk region st h1]⟩
    · rw [generate_alert_rate_limited 60 (t + 30) p2 a2 risk region _ h2]
    · exact ⟨_, by rw [generate_alert_sent_eq 60 (t + 61) p3 a3 risk region _ h3]⟩

/-- Witness for C6 at a fresh state and concrete times 100, 130 and 161. -/
theorem c6_rate_limiter_cooldown_witness :
    ((100 : ℤ) - initState.lastAlert regionR001.id > 60) ∧
    (generate_alert 60 (100 + 30) none none c3Result regionR001
        (generate_alert 60 100 none none c3Result regionR001 initState).2).1
      = GenResult.rateLimited regionR001.id :=
  ⟨by decide,
   (c6_rate_limiter_cooldown.2 initState c3Result regionR001 none none none none none none
      100 (by decide)).2.1⟩

/- ── theorems: C7 ────────────────────────────────────────────── -/

/-- C7. When can_send is false, generate_alert returns rate_limited with the
whole service state unchanged (no prediction or alert persisted, no delivery
log line, no rate limiter update); consequently two consecutive calls for the
same region within the 60 minute cooldown return sent then rate_limited, with
exactly one alert persisted across both calls. -/
theorem c7_rate_limited_no_side_effects :
    (∀ (cooldown now : ℤ) (p a : Option ℕ) (risk : RiskResult) (region : RegionInfo)
       (st : AlertServiceState),
      can_send st cooldown now region.id = false →
      generate_alert cooldown now p a risk region st
        = (GenResult.rateLimited region.id, st)) ∧
    (∀ (risk : RiskResult) (region : RegionInfo) (st : AlertServiceState)
       (pid aid : ℕ) (p2 a2 : Option ℕ) (t d : ℤ),
      t - st.lastAlert region.id > 60 → 0 ≤ d → d ≤ 60 →
      (generate_alert 60 t (some pid) (some aid) risk region st).1
        = GenResult.sent { builtAlert risk region with
            prediction_id := some pid, id := some aid } ∧
      (generate_alert 60 (t + d) p2 a2 risk region
          (generate_alert 60 t (some pid) (some aid) risk region st).2).1
        = GenResult.rateLimited region.id ∧
      (generate_alert 60 (t + d) p2 a2 risk region
          (generate_alert 60 t (some pid) (some aid) risk region st).2).2.alerts
        = st.alerts ++ [{ builtAlert risk region with prediction_id := some pid }] ∧
      (generate_alert 60 (t + d) p2 a2 risk region
          (generate_alert 60 t (some pid) (some aid) risk region st).2).2.alerts.length
        = st.alerts.length + 1) := by
  constructor
  · exact generate_alert_rate_limited
  · intro risk region st pid aid p2 a2 t d ht hd0 hd60
    have h1 : can_send st 60 t region.id = true := by
      simp only [can_send, decide_eq_true_eq]
      exact ht
    have hlast : (generate_alert 60 t (some pid) (some aid) risk region st).2.lastAlert
        region.id = t := by
      rw [generate_alert_sent_eq 60 t (some pid) (some aid) risk region st h1]
      simp
    have h2 : can_send (generate_alert 60 t (some pid) (some aid) risk region st).2 60
        (t + d) region.id = false := by
      simp only [can_send, hlast, decide_eq_false_iff_not]
      omega
    have halerts : (generate_alert 60 t (some pid) (some aid) risk region st).2.alerts
        = st.alerts ++ [{ builtAlert risk region with prediction_id := some pid }] := by
      rw [generate_alert_sent_eq 60 t (some pid) (some aid) risk region st h1]
    refine ⟨?_, ?_, ?_, ?_⟩
    · rw [generate_alert_sent_eq 60 t (some pid) (some aid) risk region st h1]
    · rw [generate_alert_rate_limited 60 (t + d) p2 a2 risk region _ h2]
    · rw [generate_alert_rate_limited 60 (t + d) p2 a2 risk region _ h2]
      exact halerts
    · rw [generate_alert_rate_limited 60 (t + d) p2 a2 risk region _ h2]
      rw [halerts]
      simp

/-- Witness for C7: fresh state, first call at 100, second at 100 plus 30. -/
theorem c7_rate_limited_no_side_effects_witness :
    ((100 : ℤ) - initState.lastAlert regionR001.id > 60) ∧ ((0 : ℤ) ≤ 30) ∧ ((30 : ℤ) ≤ 60) ∧
    (generate_alert 60 (100 + 30) none none c3Result regionR001
        (generate_alert 60 100 (some 1) (some 2) c3Result regionR001 initState).2).2.alerts.length
      = initState.alerts.length + 1 :=
  ⟨by decide, by decide, by decide,
   (c7_rate_limited_no_side_effects.2 c3Result regionR001 initState 1 2 none none 100 30
      (by decide) (by decide) (by decide)).2.2.2⟩

/- ── theorems: C8 ────────────────────────────────────────────── -/

/-- C8. For any outcome of the two best-effort DAO inserts, including both
raising, a call that passes the rate limiter still records the send in the
rate limiter, still appends the delivery log line, and still returns sent with
the alert payload; a failed insert only leaves the corresponding id absent. -/
theorem c8_persistence_failure_best_effort :
    ∀ (cooldown now : ℤ) (p a : Option ℕ) (risk : RiskResult) (region : RegionInfo)
      (st : AlertServiceState),
      can_send st cooldown now region.id = true →
      (generate_alert cooldown now p a risk region st).1
        = GenResult.sent { builtAlert risk region with prediction_id := p, id := a } ∧
      (generate_alert cooldown now p a risk region st).2.lastAlert region.id = now ∧
      (generate_alert cooldown now p a risk region st).2.deliveryLog
        = st.deliveryLog ++
            [⟨now, (builtAlert risk region).title, (builtAlert risk region).severity⟩] := by
  intro cooldown now p a risk region st h
  rw [generate_alert_sent_eq cooldown now p a risk region st h]
  refine ⟨rfl, ?_, rfl⟩
  simp

/-- Witness for C8 with both inserts raising. -/
theorem c8_persistence_failure_best_effort_witness :
    can_send initState 60 100 regionR001.id = true ∧
    (generate_alert 60 100 none none c3Result regionR001 initState).1
      = GenResult.sent { builtAlert c3Result regionR001 with
          prediction_id := none, id := none } ∧
    (generate_alert 60 100 none none c3Result regionR001 initState).2.lastAlert
        regionR001.id = 100 :=
  ⟨by decide,
   (c8_persistence_failure_best_effort 60 100 none none c3Result regionR001 initState
      (by decide)).1,
   (c8_persistence_failure_best_effort 60 100 none none c3Result regionR001 initState
      (by decide)).2.1⟩

/- ── theorems: C10 ───────────────────────────────────────────── -/

/-- C10. generate_alert applies no qualification gate of its own: whenever the
region passes the rate limiter it returns sent with the built alert payload
and appends the delivery log line for every risk result, Low or None included,
and persists the alert whenever the insert succeeds; the
should_trigger_alert gate lives only in the caller, whose auto-alert step
invokes the dispatcher exactly when should_trigger_alert accepts. -/
theorem c10_generate_alert_no_gate :
    (∀ (cooldown now : ℤ) (p a : Option ℕ) (risk : RiskResult) (region : RegionInfo)
       (st : AlertServiceState),
      can_send st cooldown now region.id = true →
      (generate_alert cooldown now p a risk region st).1
        = GenResult.sent { builtAlert risk region with prediction_id := p, id := a } ∧
      (generate_alert cooldown now p a risk region st).2.deliveryLog
        = st.deliveryLog ++
            [⟨now, (builtAlert risk region).title, (builtAlert risk region).severity⟩]) ∧
    (∀ (cooldown now : ℤ) (pid aid : ℕ) (risk : RiskResult) (region : RegionInfo)
       (st : AlertServiceState),
      can_send st cooldown now region.id = true →
      (generate_alert cooldown now (some pid) (some aid) risk region st).2.alerts
        = st.alerts ++ [{ builtAlert risk region with prediction_id := some pid }]) ∧
    (∀ (cooldown now : ℤ) (p a : Option ℕ) (risk : RiskResult) (region : RegionInfo)
       (st : AlertServiceState),
      (predict_risk_auto_alert cooldown now p a risk region st).isSome
        = should_trigger_alert risk) := by
  refine ⟨?_, ?_, ?_⟩
  · intro cooldown now p a risk region st h
    rw [generate_alert_sent_eq cooldown now p a risk region st h]
    exact ⟨rfl, rfl⟩
  · intro cooldown now pid aid risk region st h
    rw [generate_alert_sent_eq cooldown now (some pid) (some aid) risk region st h]
  · intro cooldown now p a risk region st
    by_cases h : should_trigger_alert risk = true
    · simp [predict_risk_auto_alert, h]
    · simp only [Bool.not_eq_true] at h
      simp [predict_risk_auto_alert, h]

/-- Prediction whose assessment is Low risk with disaster type None. -/
def c10Pred : MLPrediction :=
  { disaster_type := "None", risk_probability := 0, risk_score := 0, risk_level := "Low",
    recommended_action := "Monitor", class_probabilities := [], model_version := "rule_based_v1" }

/-- Low and None assessment used to witness the missing gate. -/
def c10Risk : RiskResult := compute_risk_score c10Pred none

theorem c10Risk_final : c10Risk.final_risk_score = 0 := by
  show pyInt (min 100 (max 0 ((0 : ℚ) + ((0 : ℕ) : ℚ)))) = 0
  have h : (0 : ℚ) + ((0 : ℕ) : ℚ) = 0 := by norm_num
  rw [h]
  decide

theorem c10Risk_no_trigger : should_trigger_alert c10Risk = false := by
  simp [should_trigger_alert, c10Risk_final]

/-- Witness for C10 at a Low and None assessment passing the rate limiter. -/
theorem c10_generate_alert_no_gate_witness :
    can_send initState 60 100 regionR001.id = true ∧
    should_trigger_alert c10Risk = false ∧
    (generate_alert 60 100 none none c10Risk regionR001 initState).1
      = GenResult.sent { builtAlert c10Risk regionR001 with
          prediction_id := none, id := none } ∧
    (predict_risk_auto_alert 60 100 none none c10Risk regionR001 initState).isSome
      = should_trigger_alert c10Risk :=
  ⟨by decide, c10Risk_no_trigger,
   (c10_generate_alert_no_gate.1 60 100 none none c10Risk regionR001 initState (by decide)).1,
   c10_generate_alert_no_gate.2.2 60 100 none none c10Risk regionR001 initState⟩

/- ── features.py rolling block ───────────────────────────────── -/

/-- Trailing window of the pandas rolling computation in
compute_temporal_features: the last k readings of the series up to and
including index i, fewer when fewer exist. The series is the ordered readings
of one channel for one region, after the sort by region and timestamp and the
group by region of the source. -/
def trailingWindow (xs : List ℚ) (i k : ℕ) : List ℚ :=
  (xs.take (i + 1)).reverse.take k

/-- Arithmetic mean of a window: sum divided by count. -/
def listMean (l : List ℚ) : ℚ := l.sum / (l.length : ℚ)

/-- Column col_roll3, rolling(3, min_periods=1).mean() at index i. -/
def roll3 (xs : List ℚ) (i : ℕ) : ℚ := listMean (trailingWindow xs i 3)

/-- Column col_roll7, rolling(7, min_periods=1).mean() at index i. -/
def roll7 (xs : List ℚ) (i : ℕ) : ℚ := listMean (trailingWindow xs i 7)

/-- Sample variance with one delta degree of freedom, the square of the pandas
rolling standard deviation over a window of at least two samples. -/
def sampleVar (l : List ℚ) : ℚ :=
  (l.map (fun x => (x - listMean l) ^ 2)).sum / (((l.length - 1 : ℕ)) : ℚ)

/-- Square of column col_roll_std3, rolling(3, min_periods=1).std().fillna(0)
at index i: a window with fewer than two samples yields NaN, filled to 0. The
pandas value is the square root of this rational, zero exactly when this
rational is zero. -/
def rollStd3Sq (xs : List ℚ) (i : ℕ) : ℚ :=
  if (trailingWindow xs i 3).length < 2 then 0 else sampleVar (trailingWindow xs i 3)

/-- Column col_roll_std3 as a real number. -/
noncomputable def rollStd3 (xs : List ℚ) (i : ℕ) : ℝ :=
  Real.sqrt ((rollStd3Sq xs i : ℚ) : ℝ)

/-- Column col_trend: current value minus the 7 sample trailing mean. -/
def trendAt (xs : List ℚ) (i : ℕ) : ℚ := xs.getD i 0 - roll7 xs i

theorem trailingWindow_length (xs : List ℚ) (i k : ℕ) (h : i < xs.length) :
    (trailingWindow xs i k).length = min k (i + 1) := by
  have h1 : i + 1 ≤ xs.length := h
  simp [trailingWindow, List.length_take, List.length_reverse, Nat.min_eq_left h1]

/-- C9. The per-channel rolling statistics use minimum period one semantics:
the trailing 3 record mean averages however many of the last three records
exist (including the current one), the trailing 7 record mean likewise, the
trailing 3 record standard deviation is 0 when fewer than two samples are
present, and the trend equals the current value minus the 7 sample trailing
mean; over a single record history the rolling means equal that record and
the rolling standard deviation is zero. -/
theorem c9_rolling_min_period_semantics :
    ∀ (xs : List ℚ) (i : ℕ), i < xs.length →
      ((trailingWindow xs i 3).length = min 3 (i + 1) ∧
       roll3 xs i = (trailingWindow xs i 3).sum / ((min 3 (i + 1) : ℕ) : ℚ) ∧
       (trailingWindow xs i 7).length = min 7 (i + 1) ∧
       roll7 xs i = (trailingWindow xs i 7).sum / ((min 7 (i + 1) : ℕ) : ℚ)) ∧
      ((trailingWindow xs i 3).length < 2 → rollStd3Sq xs i = 0 ∧ rollStd3 xs i = 0) ∧
      trendAt xs i = xs.getD i 0 - roll7 xs i ∧
      (i = 0 → roll3 xs 0 = xs.getD 0 0 ∧ roll7 xs 0 = xs.getD 0 0 ∧
        rollStd3Sq xs 0 = 0 ∧ rollStd3 xs 0 = 0) := by
  intro xs i h
  have hstd0 : ∀ j, j < xs.length → (trailingWindow xs j 3).length < 2 →
      rollStd3Sq xs j = 0 ∧ rollStd3 xs j = 0 := by
    intro j _ h2
    have hs : rollStd3Sq xs j = 0 := by simp [rollStd3Sq, h2]
    refine ⟨hs, ?_⟩
    simp [rollStd3, hs]
  refine ⟨⟨trailingWindow_length xs i 3 h, ?_, trailingWindow_length xs i 7 h, ?_⟩,
    hstd0 i h, rfl, ?_⟩
  · show listMean (trailingWindow xs i 3) = _
    rw [listMean, trailingWindow_length xs i 3 h]
  · show listMean (trailingWindow xs i 7) = _
    rw [listMean, trailingWindow_length xs i 7 h]
  · intro hi
    subst hi
    cases xs with
    | nil => simp at h
    | cons y ys =>
      have hw3 : trailingWindow (y :: ys) 0 3 = [y] := by
        simp [trailingWindow]
      have hw7 : trailingWindow (y :: ys) 0 7 = [y] := by
        simp [trailingWindow]
      have hm3 : roll3 (y :: ys) 0 = y := by
        rw [roll3, hw3]
        simp [listMean]
      have hm7 : roll7 (y :: ys) 0 = y := by
        rw [roll7, hw7]
        simp [listMean]
      have hlt : (trailingWindow (y :: ys) 0 3).length < 2 := by
        rw [hw3]; simp
      obtain ⟨hs, hr⟩ := hstd0 0 (by simp) hlt
      exact ⟨by simp [hm3], by simp [hm7], hs, hr⟩

/-- Witness for C9 on the single record history with reading 5. -/
theorem c9_rolling_min_period_semantics_witness :
    (0 : ℕ) < [(5 : ℚ)].length ∧
    roll3 [(5 : ℚ)] 0 = [(5 : ℚ)].getD 0 0 ∧
    rollStd3Sq [(5 : ℚ)] 0 = 0 :=
  ⟨by decide,
   ((c9_rolling_min_period_semantics [(5 : ℚ)] 0 (by decide)).2.2.2 rfl).1,
   ((c9_rolling_min_period_semantics [(5 : ℚ)] 0 (by decide)).2.2.2 rfl).2.2.1⟩
